import Mathlib

/-
Shallow embedding of `src/main.py` from lesteroliver911/license-vision-analyzer.

The program is a Streamlit page: upload an image, type instructions, click a
button; the image is decoded with PIL, converted to RGB, sent with a composed
prompt to a hosted Gemini model, and the reply is rendered and offered as a
base64 data-URI download.

External libraries are modelled as parameters:
  * PIL decoding (`Image.open`) is a `Decoder` (exception message on failure);
  * PIL mode conversion (`Image.convert`) is a `Converter`;
  * the hosted model is a `GenModel` whose `respond` maps a chat history and a
    message (a list of parts) to a reply or a failure.
Static page chrome (page config, file-uploader widget, expander text, spinner)
produces no data-dependent output and is not modelled; `main` returns the list
of dynamic UI actions in render order.
-/

namespace LicenseVision

/-- A single-quote character, used to assemble literals that contain one. -/
def sq : String := String.singleton (Char.ofNat 39)

/-- Raw bytes of an uploaded file, one `Nat` (< 256) per byte. -/
abbrev ByteSeq := List Nat

/-- A decoded PIL bitmap: its color mode string and opaque pixel payload. -/
structure PILImage where
  mode : String
  pixdata : List Nat
deriving DecidableEq, Repr

/-- `PIL.Image.open` on the uploaded bytes: a bitmap, or the exception text. -/
abbrev Decoder := ByteSeq → Except String PILImage

/-- `PIL.Image.convert`: reencodes the pixel payload into the requested mode. -/
abbrev Converter := PILImage → String → PILImage

/-- `process_image` (main.py lines 49-59): decode the uploaded file, convert to
RGB when the mode differs, return `None` and a log entry when decoding throws.
The second component is the list of log lines the call emits. -/
def process_image (dec : Decoder) (conv : Converter) (image_file : ByteSeq) :
    Option PILImage × List String :=
  match dec image_file with
  | .ok image => (some (if image.mode ≠ "RGB" then conv image "RGB" else image), [])
  | .error e => (none, ["Error processing image: " ++ e])

/-- One part of a chat message: a text block or a bitmap. -/
inductive Part where
  | text (s : String)
  | image (img : PILImage)
deriving DecidableEq, Repr

/-- A chat message is a list of parts (main.py sends `[full_prompt, image]`). -/
abbrev Message := List Part

/-- The reply object of the hosted model; `.text` is the reply text. -/
structure ModelResponse where
  text : String
deriving DecidableEq, Repr

/-- The hosted Gemini model: given the conversation history and one message,
returns a reply or the text of the raised exception. -/
structure GenModel where
  respond : List Message → Message → Except String ModelResponse

/-- `model.start_chat(history=...)`: a session holding the model and history. -/
structure ChatSession where
  model : GenModel
  history : List Message

/-- `model.start_chat` (main.py line 64). -/
def GenModel.start_chat (m : GenModel) (history : List Message) : ChatSession :=
  ⟨m, history⟩

/-- `chat.send_message` forwards the session history and the message. -/
def ChatSession.send_message (c : ChatSession) (parts : Message) :
    Except String ModelResponse :=
  c.model.respond c.history parts

/-- Static text of the composed prompt before the user text (main.py 67-68). -/
def promptPre : String :=
  "\n        Please analyze this driver" ++ sq ++ "s license image and "

/-- Static text of the composed prompt after the user text (main.py 68-72). -/
def promptPost : String :=
  "\n        \n        Please provide the information in a clear, structured format.\n        If any information is unclear or cannot be read, please indicate that.\n        "

/-- The f-string `full_prompt` of main.py lines 67-72. -/
def full_prompt (custom_prompt : String) : String :=
  promptPre ++ custom_prompt ++ promptPost

/-- `analyze_license` (main.py lines 61-83): start a chat with empty history,
send the composed prompt and the image as one message, return the reply text;
an exception is logged and re-raised (propagates as `.error`). -/
def analyze_license (model : GenModel) (image : PILImage) (custom_prompt : String) :
    Except String String :=
  let chat := model.start_chat []
  match chat.send_message [Part.text (full_prompt custom_prompt), Part.image image] with
  | .ok response => .ok response.text
  | .error e => .error e

/-- The standard base64 alphabet, in index order (RFC 4648, as used by
Python's `base64.b64encode`). -/
def base64Alphabet : List Char :=
  ['A', 'B', 'C', 'D', 'E', 'F', 'G', 'H', 'I', 'J', 'K', 'L', 'M',
   'N', 'O', 'P', 'Q', 'R', 'S', 'T', 'U', 'V', 'W', 'X', 'Y', 'Z',
   'a', 'b', 'c', 'd', 'e', 'f', 'g', 'h', 'i', 'j', 'k', 'l', 'm',
   'n', 'o', 'p', 'q', 'r', 's', 't', 'u', 'v', 'w', 'x', 'y', 'z',
   '0', '1', '2', '3', '4', '5', '6', '7', '8', '9', '+', '/']

/-- Character encoding one 6-bit group. -/
def encChar (n : Nat) : Char := base64Alphabet.getD n 'A'

/-- Index of a base64 character in the alphabet. -/
def decChar (c : Char) : Nat := base64Alphabet.indexOf c

/-- `base64.b64encode` on a byte sequence: groups of three bytes become four
alphabet characters; a final group of one or two bytes is padded with `=`. -/
def b64encode : List Nat → List Char
  | [] => []
  | [a] => [encChar (a / 4), encChar (a % 4 * 16), '=', '=']
  | [a, b] => [encChar (a / 4), encChar (a % 4 * 16 + b / 16), encChar (b % 16 * 4), '=']
  | a :: b :: c :: rest =>
      encChar (a / 4) :: encChar (a % 4 * 16 + b / 16) ::
      encChar (b % 16 * 4 + c / 64) :: encChar (c % 64) :: b64encode rest

/-- Standard base64 decoding (the inverse the browser applies to a
`data:...;base64,` URI): four characters yield three bytes, with a trailing
`=` or `==` marking a short final group. -/
def b64decode : List Char → List Nat
  | w :: x :: y :: z :: rest =>
      if y = '=' then [decChar w * 4 + decChar x / 16]
      else if z = '=' then
        [decChar w * 4 + decChar x / 16, decChar x % 16 * 16 + decChar y / 4]
      else
        (decChar w * 4 + decChar x / 16) ::
        (decChar x % 16 * 16 + decChar y / 4) ::
        (decChar y % 4 * 64 + decChar z) :: b64decode rest
  | _ => []

/-- `str.encode()`: the UTF-8 bytes of a string, as naturals below 256. -/
def strBytes (s : String) : List Nat := s.toUTF8.toList.map (fun u => u.toNat)

/-- Static text of `result_str` before the analysis text (main.py 156-160). -/
def resPre : String :=
  "\n                        Driver" ++ sq ++ "s License Analysis Results\n                        --------------------------------\n                        \n                        "

/-- Static text of `result_str` after the analysis text (main.py 160-161). -/
def resPost : String := "\n                        "

/-- The f-string `result_str` of main.py lines 156-161: a fixed header wrapped
around the analysis text. -/
def result_str (analysis : String) : String := resPre ++ analysis ++ resPost

/-- The base64 payload embedded in the download link (main.py line 162):
`base64.b64encode(result_str.encode()).decode()`. -/
def b64payload (analysis : String) : List Char := b64encode (strBytes (result_str analysis))

/-- The download anchor `href` of main.py line 163. -/
def download_href (analysis : String) : String :=
  "<a href=\"data:text/plain;base64," ++ String.mk (b64payload analysis) ++
  "\" download=\"license_analysis.txt\">Download Analysis Results</a>"

/-- One dynamic UI action emitted while rendering the page. -/
inductive UIAction where
  | error (msg : String)
  | info (msg : String)
  | subheader (s : String)
  | markdown (s : String)
  | markdownHtml (s : String)
  | imageRender (img : PILImage)
deriving DecidableEq, Repr

/-- The inputs of one render pass: the uploaded file (if any), the text-area
content, and whether the analyze button was clicked this pass. -/
structure AppInputs where
  uploaded_file : Option ByteSeq
  custom_prompt : String
  button_clicked : Bool

/-- The gate of main.py line 144, `if uploaded_file and custom_prompt:`:
Python truthiness of the upload (not `None`) and of the string (non-empty).
The analyze button exists, and so can fire, exactly under this condition. -/
def analysis_enabled (inp : AppInputs) : Bool :=
  inp.uploaded_file.isSome && (inp.custom_prompt != "")

/-- Info message of main.py line 170 (its leading emoji bytes elided). -/
def info_upload_msg : String :=
  "Upload a driver" ++ sq ++ "s license image in the sidebar to begin"

/-- Info message of main.py line 172 (its leading emoji bytes elided). -/
def info_prompt_msg : String := "Please provide analysis instructions above"

/-- Sidebar rendering (main.py lines 93-108): when a file is uploaded, decode
it and, if that produced an image, show a preview; a `None` from
`process_image` renders nothing (the `except` arm is unreachable because
`process_image` catches internally and never raises). -/
def sidebar_render (dec : Decoder) (conv : Converter) (uf : Option ByteSeq) :
    List UIAction :=
  match uf with
  | none => []
  | some f =>
      match (process_image dec conv f).1 with
      | some image => [UIAction.subheader "License Preview", UIAction.imageRender image]
      | none => []

/-- `main` (main.py lines 85-172): the dynamic UI actions of one render pass,
in order. Model initialization failure reports an error and returns; otherwise
the analyze section runs exactly when `analysis_enabled` holds and the button
was clicked, and any exception raised inside it (only `analyze_license` can
raise) is reported as a generic error message. -/
def main (initModel : Except String GenModel) (dec : Decoder) (conv : Converter)
    (inp : AppInputs) : List UIAction :=
  let sidebar := sidebar_render dec conv inp.uploaded_file
  match initModel with
  | .error e => sidebar ++ [UIAction.error ("Error initializing model: " ++ e)]
  | .ok model =>
      sidebar ++
      (if analysis_enabled inp then
        (if inp.button_clicked then
          (match inp.uploaded_file with
           | some f =>
             (match (process_image dec conv f).1 with
              | some image =>
                (match analyze_license model image inp.custom_prompt with
                 | .ok analysis =>
                     [UIAction.subheader "Analysis Results",
                      UIAction.markdown analysis,
                      UIAction.markdownHtml (download_href analysis)]
                 | .error e => [UIAction.error ("Error during analysis: " ++ e)])
              | none => [])
           | none => [])
         else [])
       else
        (if inp.uploaded_file.isNone then [UIAction.info info_upload_msg]
         else [UIAction.info info_prompt_msg]))

/-- Module-level startup (main.py lines 19-22): read `GEMINI_API_KEY` from the
environment; `if not GEMINI_API_KEY` (absent, or present but empty) raise a
`ValueError` before anything else runs. -/
def startup (env : String → Option String) : Except String Unit :=
  let key := (env "GEMINI_API_KEY").getD ""
  if key = "" then .error "Missing required GEMINI_API_KEY in environment variables"
  else .ok ()

/-- The whole process: module initialization, then (when it succeeded) the
render pass. A startup error means no UI action — in particular no analysis —
ever happens. -/
def run_program (env : String → Option String) (initModel : Except String GenModel)
    (dec : Decoder) (conv : Converter) (inp : AppInputs) :
    Except String (List UIAction) :=
  match startup env with
  | .error e => .error e
  | .ok _ => .ok (main initModel dec conv inp)

/-! ### Base64 lemmas -/

/-- Decoding a 6-bit group's character recovers the group. -/
theorem dec_enc : ∀ n, n < 64 → decChar (encChar n) = n := by decide

/-- Alphabet characters are never the padding character. -/
theorem encChar_ne_pad : ∀ n, n < 64 → encChar n ≠ '=' := by decide

/-- Base64 decoding is a left inverse of encoding on byte sequences. -/
theorem b64_roundtrip : ∀ l : List Nat, (∀ b ∈ l, b < 256) →
    b64decode (b64encode l) = l
  | [], _ => rfl
  | [a], h => by
      have ha : a < 256 := h a (by simp)
      simp only [b64encode, b64decode, if_true]
      rw [dec_enc _ (by omega), dec_enc _ (by omega)]
      simp only [List.cons.injEq, and_true]
      omega
  | [a, b], h => by
      have ha : a < 256 := h a (by simp)
      have hb : b < 256 := h b (by simp)
      simp only [b64encode, b64decode, if_true]
      rw [if_neg (encChar_ne_pad _ (by omega)),
        dec_enc _ (by omega), dec_enc _ (by omega), dec_enc _ (by omega)]
      simp only [List.cons.injEq, and_true]
      omega
  | [a, b, c], h => by
      have ha : a < 256 := h a (by simp)
      have hb : b < 256 := h b (by simp)
      have hc : c < 256 := h c (by simp)
      simp only [b64encode]
      rw [b64decode]
      rw [if_neg (encChar_ne_pad _ (by omega)), if_neg (encChar_ne_pad _ (by omega)),
        dec_enc _ (by omega), dec_enc _ (by omega), dec_enc _ (by omega),
        dec_enc _ (by omega)]
      simp only [List.cons.injEq, and_true]
      exact ⟨by omega, by omega, by omega, rfl⟩
  | a :: b :: c :: d :: rest, h => by
      have ha : a < 256 := h a (by simp)
      have hb : b < 256 := h b (by simp)
      have hc : c < 256 := h c (by simp)
      have ih : b64decode (b64encode (d :: rest)) = d :: rest :=
        b64_roundtrip (d :: rest) (fun x hx => h x (by simp at hx ⊢; tauto))
      simp only [b64encode]
      rw [b64decode]
      rw [if_neg (encChar_ne_pad _ (by omega)), if_neg (encChar_ne_pad _ (by omega)),
        dec_enc _ (by omega), dec_enc _ (by omega), dec_enc _ (by omega),
        dec_enc _ (by omega)]
      rw [ih]
      simp only [List.cons.injEq]
      exact ⟨by omega, by omega, by omega, trivial⟩

/-- UTF-8 bytes are below 256. -/
theorem strBytes_lt (s : String) : ∀ b ∈ strBytes s, b < 256 := by
  intro b hb
  simp only [strBytes, List.mem_map] at hb
  obtain ⟨u, _, rfl⟩ := hb
  exact u.toNat_lt

/-- Round trip on the UTF-8 bytes of any string. -/
theorem b64_roundtrip_str (s : String) :
    b64decode (b64encode (strBytes s)) = strBytes s :=
  b64_roundtrip (strBytes s) (strBytes_lt s)

/-! ### Concrete fixtures used by witnesses and counterexamples -/

/-- A bitmap fixture already in RGB mode. -/
def rgbImage : PILImage := ⟨"RGB", [7, 7, 7]⟩

/-- A decoder fixture: every file decodes to `rgbImage`. -/
def decOk : Decoder := fun _ => .ok rgbImage

/-- A decoder fixture: every file fails to decode, with PIL's message. -/
def decFail : Decoder := fun _ => .error "cannot identify image file"

/-- A converter fixture that reencodes the payload under the requested mode. -/
def convMode : Converter := fun img m => ⟨m, img.pixdata⟩

/-- A model fixture replying with a fixed text to every message. -/
def modelOk : GenModel := ⟨fun _ _ => .ok ⟨"All fields extracted."⟩⟩

/-- A model fixture raising on every message. -/
def modelFail : GenModel := ⟨fun _ _ => .error "503 quota exceeded"⟩

/-- Inputs fixture: file uploaded, instructions typed, button clicked. -/
def inpClicked : AppInputs := ⟨some [1, 2, 3], "extract the name", true⟩

/-! ### Claim theorems -/

/-- Claim C3: when the uploaded bytes do not decode, `process_image` returns
`None` together with exactly one log line, instead of raising: a non-image
file takes the "no image" path, never a crash. -/
theorem c3_decode_failure_none_logged
    (dec : Decoder) (conv : Converter) (f : ByteSeq) (e : String)
    (h : dec f = .error e) :
    process_image dec conv f = (none, ["Error processing image: " ++ e]) := by
  simp [process_image, h]

/-- Witness for C3 at a concrete failing decoder. -/
theorem c3_witness :
    decFail [0, 1] = .error "cannot identify image file" ∧
    process_image decFail convMode [0, 1] =
      (none, ["Error processing image: " ++ "cannot identify image file"]) :=
  ⟨rfl, c3_decode_failure_none_logged decFail convMode [0, 1] _ rfl⟩

/-- Claim C4: whenever `process_image` returns an image, that image's mode is
RGB, provided the converter obeys PIL's contract that `convert` returns an
image of the requested mode. -/
theorem c4_mode_rgb
    (dec : Decoder) (conv : Converter) (f : ByteSeq) (img : PILImage)
    (hconv : ∀ i m, (conv i m).mode = m)
    (h : (process_image dec conv f).1 = some img) :
    img.mode = "RGB" := by
  unfold process_image at h
  cases hdec : dec f with
  | error e => rw [hdec] at h; simp at h
  | ok i =>
      rw [hdec] at h
      simp only [Option.some.injEq] at h
      by_cases hm : i.mode = "RGB"
      · rw [if_neg (by simp [hm])] at h
        rw [← h, hm]
      · rw [if_pos hm] at h
        rw [← h, hconv]

/-- Witness for C4 at a concrete decoder and converter. -/
theorem c4_witness :
    (∀ i m, (convMode i m).mode = m) ∧
    (process_image decOk convMode [5]).1 = some rgbImage ∧
    rgbImage.mode = "RGB" :=
  ⟨fun _ _ => rfl, rfl,
   c4_mode_rgb decOk convMode [5] rgbImage (fun _ _ => rfl) rfl⟩

/-- Claim C10: on an already-RGB decoded image `process_image` returns the
decoded object itself unchanged, and the conversion is applied exactly when
the decoded mode differs from RGB. -/
theorem c10_rgb_identity
    (dec : Decoder) (conv : Converter) (f : ByteSeq) (img : PILImage)
    (h : dec f = .ok img) :
    (img.mode = "RGB" → process_image dec conv f = (some img, [])) ∧
    (img.mode ≠ "RGB" → process_image dec conv f = (some (conv img "RGB"), [])) := by
  constructor <;> intro hm <;> simp [process_image, h, hm]

/-- Witness for C10 at a concrete RGB-decoding decoder. -/
theorem c10_witness :
    decOk [9] = .ok rgbImage ∧
    ((rgbImage.mode = "RGB" → process_image decOk convMode [9] = (some rgbImage, [])) ∧
     (rgbImage.mode ≠ "RGB" →
       process_image decOk convMode [9] = (some (convMode rgbImage "RGB"), []))) :=
  ⟨rfl, c10_rgb_identity decOk convMode [9] rgbImage rfl⟩

/-- Claim C7: the composed prompt is the pure concatenation of the fixed
template around the caller-supplied text — for every instruction string, of
any length, the user text occurs verbatim as a contiguous substring. -/
theorem c7_prompt_concat_verbatim (p : String) :
    full_prompt p = promptPre ++ p ++ promptPost ∧
    p.data <:+: (full_prompt p).data := by
  refine ⟨rfl, promptPre.data, promptPost.data, ?_⟩
  simp [full_prompt, String.data_append]

/-- Claim C8: `analyze_license` starts a chat whose history is empty, sends
the composed prompt and the bitmap together as the parts of one message, and
returns the model's reply text unmodified (or propagates the failure). -/
theorem c8_stateless_single_message (model : GenModel) (img : PILImage) (p : String) :
    analyze_license model img p =
      (model.respond [] [Part.text (full_prompt p), Part.image img]).map ModelResponse.text := by
  cases h : model.respond [] [Part.text (full_prompt p), Part.image img] <;>
    simp [analyze_license, GenModel.start_chat, ChatSession.send_message, h, Except.map]

/-- Claim C9: base64-decoding the download payload recovers exactly the
result string — the fixed header wrapped around the analysis text — so the
encode/decode round trip is the identity on it. -/
theorem c9_base64_roundtrip (analysis : String) :
    b64decode (b64payload analysis) = strBytes (result_str analysis) ∧
    result_str analysis = resPre ++ analysis ++ resPost :=
  ⟨b64_roundtrip_str (result_str analysis), rfl⟩

/-- Claim C5: with a file uploaded, the analyze action is available exactly
when the instructions string is non-empty — any non-empty text passes, so no
further validation is applied — and with an empty instructions field the
render pass only adds the "provide instructions" info message. -/
theorem c5_enabled_iff_nonempty
    (model : GenModel) (dec : Decoder) (conv : Converter) (inp : AppInputs)
    (f : ByteSeq)
    (hfile : inp.uploaded_file = some f) :
    (analysis_enabled inp = true ↔ inp.custom_prompt ≠ "") ∧
    (inp.custom_prompt = "" →
      main (.ok model) dec conv inp =
        sidebar_render dec conv inp.uploaded_file ++ [UIAction.info info_prompt_msg]) := by
  constructor
  · simp [analysis_enabled, hfile, bne_iff_ne]
  · intro hp
    simp [main, analysis_enabled, hp, hfile]

/-- Witness for C5 at concrete inputs (file uploaded, prompt empty). -/
theorem c5_witness :
    (⟨some [1, 2, 3], "", false⟩ : AppInputs).uploaded_file = some [1, 2, 3] ∧
    ((analysis_enabled ⟨some [1, 2, 3], "", false⟩ = true ↔
        (⟨some [1, 2, 3], "", false⟩ : AppInputs).custom_prompt ≠ "") ∧
      ((⟨some [1, 2, 3], "", false⟩ : AppInputs).custom_prompt = "" →
        main (.ok modelOk) decOk convMode ⟨some [1, 2, 3], "", false⟩ =
          sidebar_render decOk convMode (some [1, 2, 3]) ++
            [UIAction.info info_prompt_msg])) :=
  ⟨rfl, c5_enabled_iff_nonempty modelOk decOk convMode _ [1, 2, 3] rfl⟩

/-- Claim C6: with `GEMINI_API_KEY` absent from the environment, module
initialization raises before anything else runs: the whole process yields
only that error, so no render pass — and hence no analysis — ever happens. -/
theorem c6_missing_key_fails_fast
    (env : String → Option String) (initModel : Except String GenModel)
    (dec : Decoder) (conv : Converter) (inp : AppInputs)
    (h : env "GEMINI_API_KEY" = none) :
    startup env = .error "Missing required GEMINI_API_KEY in environment variables" ∧
    run_program env initModel dec conv inp =
      .error "Missing required GEMINI_API_KEY in environment variables" := by
  have hs : startup env =
      .error "Missing required GEMINI_API_KEY in environment variables" := by
    simp [startup, h]
  exact ⟨hs, by simp [run_program, hs]⟩

/-- Witness for C6 at the empty environment. -/
theorem c6_witness :
    ((fun _ => none) : String → Option String) "GEMINI_API_KEY" = none ∧
    (startup (fun _ => none) =
        .error "Missing required GEMINI_API_KEY in environment variables" ∧
      run_program (fun _ => none) (.ok modelOk) decOk convMode inpClicked =
        .error "Missing required GEMINI_API_KEY in environment variables") :=
  ⟨rfl, c6_missing_key_fails_fast (fun _ => none) (.ok modelOk) decOk convMode inpClicked rfl⟩

/-- Claim C1: on a successful remote call the reply text `t` is rendered via
markdown exactly as returned, the download link embeds the base64 payload of
the result string, decoding that payload yields precisely the result string's
bytes, and `t` occurs verbatim (contiguously) inside the result string. -/
theorem c1_success_text_verbatim
    (model : GenModel) (dec : Decoder) (conv : Converter) (inp : AppInputs)
    (f : ByteSeq) (img : PILImage) (t : String)
    (hf : inp.uploaded_file = some f)
    (hp : inp.custom_prompt ≠ "")
    (hb : inp.button_clicked = true)
    (himg : (process_image dec conv f).1 = some img)
    (hresp : model.respond [] [Part.text (full_prompt inp.custom_prompt), Part.image img] =
      .ok ⟨t⟩) :
    main (.ok model) dec conv inp =
      sidebar_render dec conv inp.uploaded_file ++
        [UIAction.subheader "Analysis Results", UIAction.markdown t,
         UIAction.markdownHtml (download_href t)] ∧
    b64decode (b64payload t) = strBytes (result_str t) ∧
    t.data <:+: (result_str t).data := by
  refine ⟨?_, b64_roundtrip_str (result_str t),
    resPre.data, resPost.data, by simp [result_str, String.data_append]⟩
  have henabled : analysis_enabled inp = true := by
    simp [analysis_enabled, hf, bne_iff_ne, hp]
  have hal : analyze_license model img inp.custom_prompt = .ok t := by
    simp [analyze_license, GenModel.start_chat, ChatSession.send_message, hresp]
  simp [main, henabled, hb, hf, himg, hal]

/-- Witness for C1 at concrete fixtures. -/
theorem c1_witness :
    inpClicked.uploaded_file = some [1, 2, 3] ∧
    inpClicked.custom_prompt ≠ "" ∧
    inpClicked.button_clicked = true ∧
    (process_image decOk convMode [1, 2, 3]).1 = some rgbImage ∧
    modelOk.respond []
      [Part.text (full_prompt inpClicked.custom_prompt), Part.image rgbImage] =
      .ok ⟨"All fields extracted."⟩ ∧
    (main (.ok modelOk) decOk convMode inpClicked =
        sidebar_render decOk convMode inpClicked.uploaded_file ++
          [UIAction.subheader "Analysis Results",
           UIAction.markdown "All fields extracted.",
           UIAction.markdownHtml (download_href "All fields extracted.")] ∧
      b64decode (b64payload "All fields extracted.") =
        strBytes (result_str "All fields extracted.") ∧
      ("All fields extracted." : String).data <:+:
        (result_str "All fields extracted.").data) :=
  ⟨rfl, by decide, rfl, rfl, rfl,
   c1_success_text_verbatim modelOk decOk convMode inpClicked [1, 2, 3] rgbImage
     "All fields extracted." rfl (by decide) rfl rfl rfl⟩

/-- Claim C2 is refuted at this input: the uploaded bytes fail to decode, the
button is clicked with non-empty instructions, and the render pass emits no
action at all — in particular no user-visible error message — contradicting
"when the uploaded bytes fail to decode during the analyze flow, the user is
shown an error message". -/
theorem c2_counterexample :
    main (.ok modelOk) decFail convMode inpClicked = [] := by
  decide

/-- Claim C2 as amended: each failure is caught at its boundary and none
escapes; the model-initialization and remote-call failures surface a generic
user-visible message, but a decode failure during the analyze flow is caught
silently — the pass renders nothing and shows no message. -/
theorem c2_amended_boundaries :
    (∀ (e : String) (dec : Decoder) (conv : Converter) (inp : AppInputs),
      main (.error e) dec conv inp =
        sidebar_render dec conv inp.uploaded_file ++
          [UIAction.error ("Error initializing model: " ++ e)]) ∧
    (∀ (model : GenModel) (dec : Decoder) (conv : Converter) (inp : AppInputs)
        (f : ByteSeq) (img : PILImage) (e : String),
      inp.uploaded_file = some f → inp.custom_prompt ≠ "" →
      inp.button_clicked = true →
      (process_image dec conv f).1 = some img →
      model.respond [] [Part.text (full_prompt inp.custom_prompt), Part.image img] =
        .error e →
      main (.ok model) dec conv inp =
        sidebar_render dec conv inp.uploaded_file ++
          [UIAction.error ("Error during analysis: " ++ e)]) ∧
    (∀ (model : GenModel) (dec : Decoder) (conv : Converter) (inp : AppInputs)
        (f : ByteSeq),
      inp.uploaded_file = some f → inp.custom_prompt ≠ "" →
      inp.button_clicked = true →
      (process_image dec conv f).1 = none →
      main (.ok model) dec conv inp = []) := by
  refine ⟨fun e dec conv inp => by simp [main], ?_, ?_⟩
  · intro model dec conv inp f img e hf hp hb himg hresp
    have henabled : analysis_enabled inp = true := by
      simp [analysis_enabled, hf, bne_iff_ne, hp]
    have hal : analyze_license model img inp.custom_prompt = .error e := by
      simp [analyze_license, GenModel.start_chat, ChatSession.send_message, hresp]
    simp [main, henabled, hb, hf, himg, hal]
  · intro model dec conv inp f hf hp hb himg
    have henabled : analysis_enabled inp = true := by
      simp [analysis_enabled, hf, bne_iff_ne, hp]
    simp [main, sidebar_render, henabled, hb, hf, himg]

/-- Witness for the amended C2 at concrete fixtures. -/
theorem c2_witness :
    (main (.error "invalid model name") decOk convMode inpClicked =
      sidebar_render decOk convMode inpClicked.uploaded_file ++
        [UIAction.error ("Error initializing model: " ++ "invalid model name")]) ∧
    (main (.ok modelFail) decOk convMode inpClicked =
      sidebar_render decOk convMode inpClicked.uploaded_file ++
        [UIAction.error ("Error during analysis: " ++ "503 quota exceeded")]) ∧
    (main (.ok modelOk) decFail convMode inpClicked = []) :=
  ⟨c2_amended_boundaries.1 "invalid model name" decOk convMode inpClicked,
   c2_amended_boundaries.2.1 modelFail decOk convMode inpClicked [1, 2, 3] rgbImage
     "503 quota exceeded" rfl (by decide) rfl rfl rfl,
   c2_amended_boundaries.2.2 modelOk decFail convMode inpClicked [1, 2, 3]
     rfl (by decide) rfl rfl⟩

end LicenseVision
